import Mathlib

/-!
Verification of the agent core (`multi_agent_orchestrator/agents/agent.py`)
against its natural-language specification.

Python strings are modelled as `List Char` (a Python `str` is a sequence of
Unicode scalar values).  The regular-expression operations of
`Agent.generate_key_from_name` are embedded as explicit list traversals:
`re.sub(r"[^a-zA-Z0-9\s-]", "", name)` is a filter keeping exactly the
characters of the class `[a-zA-Z0-9\s-]`, and `re.sub(r"\s+", "-", key)`
replaces every maximal run of `\s`-characters by a single hyphen.  In a
Python 3 `str` pattern, `\s` matches the Unicode whitespace characters
(CPython's `Py_UNICODE_ISSPACE` set), which `isPySpace` lists explicitly.
-/

namespace AgentCore

/-- ASCII uppercase letter `A`-`Z` (codepoints 65-90), the `A-Z` part of the
regex character class. -/
def isAsciiUpper (c : Char) : Bool :=
  decide (65 ≤ c.toNat ∧ c.toNat ≤ 90)

/-- ASCII lowercase letter `a`-`z` (codepoints 97-122), the `a-z` part of the
regex character class. -/
def isAsciiLower (c : Char) : Bool :=
  decide (97 ≤ c.toNat ∧ c.toNat ≤ 122)

/-- ASCII digit `0`-`9` (codepoints 48-57), the `0-9` part of the regex
character class. -/
def isAsciiDigit (c : Char) : Bool :=
  decide (48 ≤ c.toNat ∧ c.toNat ≤ 57)

/-- The hyphen-minus character `-` (codepoint 45). -/
def isHyphen (c : Char) : Bool :=
  decide (c.toNat = 45)

/-- Python's regex `\s` on a `str` pattern: the CPython Unicode whitespace
set (`Py_UNICODE_ISSPACE`): TAB..CR, the four information separators,
SPACE, NEL, NO-BREAK SPACE, OGHAM SPACE MARK, the EN QUAD..HAIR SPACE
block, LINE/PARAGRAPH SEPARATOR, NARROW NO-BREAK SPACE, MEDIUM
MATHEMATICAL SPACE and IDEOGRAPHIC SPACE. -/
def isPySpace (c : Char) : Bool :=
  decide ((9 ≤ c.toNat ∧ c.toNat ≤ 13) ∨ (28 ≤ c.toNat ∧ c.toNat ≤ 31) ∨
    c.toNat = 32 ∨ c.toNat = 133 ∨ c.toNat = 160 ∨ c.toNat = 0x1680 ∨
    (0x2000 ≤ c.toNat ∧ c.toNat ≤ 0x200A) ∨ c.toNat = 0x2028 ∨
    c.toNat = 0x2029 ∨ c.toNat = 0x202F ∨ c.toNat = 0x205F ∨
    c.toNat = 0x3000)

/-- The regex character class `[a-zA-Z0-9\s-]`: `re.sub(r"[^a-zA-Z0-9\s-]",
"", name)` keeps exactly the characters satisfying this predicate. -/
def isKeyKeep (c : Char) : Bool :=
  isAsciiUpper c || isAsciiLower c || isAsciiDigit c || isPySpace c ||
    isHyphen c

/-- `re.sub(r"[^a-zA-Z0-9\s-]", "", name)`: remove every character outside
the class `[a-zA-Z0-9\s-]`. -/
def stripSpecial (s : List Char) : List Char :=
  s.filter isKeyKeep

/-- Worker for `re.sub(r"\s+", "-", key)`.  The flag records whether the
previous character was part of a whitespace run already replaced by a
hyphen, so each maximal run contributes exactly one hyphen. -/
def collapseWsAux : List Char → Bool → List Char
  | [], _ => []
  | c :: rest, inRun =>
    if isPySpace c then
      if inRun then collapseWsAux rest true
      else '-' :: collapseWsAux rest true
    else c :: collapseWsAux rest false

/-- `re.sub(r"\s+", "-", key)`: replace every maximal run of `\s`-characters
by a single hyphen. -/
def collapseWs (s : List Char) : List Char :=
  collapseWsAux s false

/-- Python `str.lower` restricted to the strings this module applies it to.
`generate_key_from_name` calls `.lower()` only after both substitutions,
when the string contains ASCII letters, digits and hyphens only (lemma
`mem_collapseWs_stripSpecial`); on those characters Python lowercasing is
exactly the ASCII shift by 32. -/
def toLowerChar (c : Char) : Char :=
  if isAsciiUpper c then Char.ofNat (c.toNat + 32) else c

/-- `Agent.generate_key_from_name` (agent.py lines 127-141):
`key = re.sub(r"[^a-zA-Z0-9\s-]", "", name)`;
`key = re.sub(r"\s+", "-", key)`; `return key.lower()`. -/
def generate_key_from_name (name : List Char) : List Char :=
  (collapseWs (stripSpecial name)).map toLowerChar

/-- `KeyNormalizer.normalize` as the spec (§4.1) words it, for comparison
with the embedded code: remove every character that is not an ASCII letter,
digit, whitespace, or hyphen; collapse every maximal run of whitespace into
a single hyphen (`collapseRunsSpec` consumes a whole maximal run at once
with `dropWhile`); lower-case the result. -/
theorem length_dropWhile_le (p : Char → Bool) :
    ∀ s : List Char, (s.dropWhile p).length ≤ s.length
  | [] => Nat.le_refl _
  | c :: cs => by
    rw [List.dropWhile]
    cases p c with
    | true => exact Nat.le_succ_of_le (length_dropWhile_le p cs)
    | false => exact Nat.le_refl _

def collapseRunsSpec : List Char → List Char
  | [] => []
  | c :: cs =>
    if isPySpace c then '-' :: collapseRunsSpec (cs.dropWhile fun d => isPySpace d)
    else c :: collapseRunsSpec cs
termination_by s => s.length
decreasing_by
  · exact Nat.lt_succ_of_le (length_dropWhile_le _ _)
  · exact Nat.lt_succ_self _

/-- The spec's three-step algorithm for `KeyNormalizer.normalize`. -/
def normalize_spec (name : List Char) : List Char :=
  (collapseRunsSpec (name.filter fun c =>
      isAsciiUpper c || isAsciiLower c || isAsciiDigit c || isPySpace c ||
        isHyphen c)).map toLowerChar

/-- Python truthiness (`if data:`) needs a model of the values a caller may
pass as the `data: Any` argument of `log_debug`. -/
inductive PyValue where
  | none
  | bool (b : Bool)
  | int (n : Int)
  | str (s : List Char)
  | dict (entries : List (List Char × PyValue))

/-- Python truthiness: `None`, `False`, `0`, `""` and `{}` are falsy. -/
def PyValue.truthy : PyValue → Bool
  | .none => false
  | .bool b => b
  | .int n => decide (n ≠ 0)
  | .str s => !s.isEmpty
  | .dict es => !es.isEmpty

mutual

/-- Python `repr` of a `PyValue` (string quoting simplified to plain
single quotes), used by `str`/f-string conversion of containers. -/
def pyRepr : PyValue → List Char
  | .none => ("None").data
  | .bool b => (if b then "True" else "False").data
  | .int n => (toString n).data
  | .str s => Char.ofNat 39 :: (s ++ [Char.ofNat 39])
  | .dict es => ("\x7b").data ++ pyReprEntries es ++ ("\x7d").data

/-- `repr` of the comma-separated `key: value` entries of a dict. -/
def pyReprEntries : List (List Char × PyValue) → List Char
  | [] => []
  | [(k, v)] => Char.ofNat 39 :: (k ++ [Char.ofNat 39]) ++ (": ").data ++ pyRepr v
  | (k, v) :: rest =>
    Char.ofNat 39 :: (k ++ [Char.ofNat 39]) ++ (": ").data ++ pyRepr v ++
      (", ").data ++ pyReprEntries rest

end

/-- Python `str()` as used by the f-string `f"... {data}"`: a string is
inserted verbatim, anything else via its `repr`-style rendering. -/
def pyStr : PyValue → List Char
  | .str s => s
  | v => pyRepr v

/-- `AgentCallbacks` (agent.py lines 61-73): one hook, whose default
implementation does nothing.  The hook is modelled by the list of
observable effects it produces on a token; the default produces none. -/
structure AgentCallbacks where
  on_llm_new_token : List Char → List (List Char) := fun _ => []

/-- `AgentOptions` (agent.py lines 76-94), with the dataclass defaults
`save_chat=True`, `callbacks=None`, `LOG_AGENT_DEBUG_TRACE=False`
(an `Optional[bool]`, so `Option Bool` with default `some false`). -/
structure AgentOptions where
  name : List Char
  description : List Char
  save_chat : Bool := true
  callbacks : Option AgentCallbacks := Option.none
  LOG_AGENT_DEBUG_TRACE : Option Bool := some false

/-- The `Agent` state established by `Agent.__init__`. -/
structure Agent where
  name : List Char
  id : List Char
  description : List Char
  save_chat : Bool
  callbacks : AgentCallbacks
  log_debug_trace : Option Bool

/-- `Agent.__init__` (agent.py lines 104-116): plain field assignment.
The source body performs no I/O and raises nothing, so its embedding is a
pure total function. -/
def Agent.init (options : AgentOptions) : Agent :=
  { name := options.name
    id := generate_key_from_name options.name
    description := options.description
    save_chat := options.save_chat
    callbacks :=
      match options.callbacks with
      | some cb => cb
      | Option.none => {}
    log_debug_trace := options.LOG_AGENT_DEBUG_TRACE }

/-- Modelled from the spec: the error taxonomy of §7 names a
`ConfigurationError` for invalid construction input (empty name); no such
type or raise exists in src. It is needed only to give construction an
`Except` type in which failure would be expressible. -/
inductive ConfigurationError where
  | emptyName

/-- `Agent.__init__` seen as a fallible constructor: the source contains no
`raise` statement on any path, so the embedding always returns `ok`. -/
def Agent.tryInit (options : AgentOptions) : Except ConfigurationError Agent :=
  Except.ok (Agent.init options)

/-- `Agent.is_streaming_enabled` (agent.py lines 118-125): `return False`. -/
def Agent.is_streaming_enabled (_ : Agent) : Bool :=
  false

/-- Truthiness of the `Optional[bool]` flag `self.log_debug_trace` as
tested by `if self.log_debug_trace:` — `None` and `False` are falsy. -/
def optTruthy : Option Bool → Bool
  | Option.none => false
  | some b => b

/-- `prefix = f"> {class_name} \n> {self.name} \n>"` (agent.py line 177). -/
def debugPfx (agentName class_name : List Char) : List Char :=
  ("> ").data ++ class_name ++ (" \n> ").data ++ agentName ++ (" \n>").data

/-- The single line `Logger.info` receives: `f"{prefix} {message} \n> {data}"`
when `data` is truthy, else `f"{prefix} {message} \n>"`
(agent.py lines 178-181). -/
def debugLine (agentName class_name message : List Char) (data : PyValue) :
    List Char :=
  if data.truthy then
    debugPfx agentName class_name ++ (" ").data ++ message ++ (" \n> ").data ++
      pyStr data
  else
    debugPfx agentName class_name ++ (" ").data ++ message ++ (" \n>").data

/-- `Agent.log_debug` (agent.py lines 167-181), observed through the list
of messages it passes to `Logger.info`: one message when the trace flag is
truthy, none otherwise. -/
def Agent.log_debug (a : Agent) (class_name message : List Char)
    (data : PyValue := PyValue.none) : List (List Char) :=
  if optTruthy a.log_debug_trace then
    [debugLine a.name class_name message data]
  else
    []

/-- `Agent.log_debug` with the external logging collaborator (`Logger.info`,
out of src) modelled as a parameter that may fail.  The source wraps the
call in no `try`/`except`, so the collaborator's outcome is returned
as-is. -/
def Agent.log_debugE {ε : Type} (a : Agent) (class_name message : List Char)
    (data : PyValue) (logger : List Char → Except ε Unit) : Except ε Unit :=
  if optTruthy a.log_debug_trace then
    logger (debugLine a.name class_name message data)
  else
    Except.ok ()

/-- A whole sequence of `log_debug` invocations on one agent, and all the
`Logger.info` messages they produce together. -/
def Agent.log_debug_many (a : Agent)
    (calls : List ((List Char) × (List Char) × PyValue)) : List (List Char) :=
  (calls.map fun c => a.log_debug c.1 c.2.1 c.2.2).flatten

/-- The character class of normalized keys: lowercase ASCII letters,
digits and hyphens. -/
def isKeyChar (c : Char) : Bool :=
  isAsciiLower c || isAsciiDigit c || isHyphen c

/-- The characters that survive `stripSpecial` and are not whitespace:
ASCII letters (either case), digits and hyphens. -/
def isPreKey (c : Char) : Bool :=
  isAsciiUpper c || isAsciiLower c || isAsciiDigit c || isHyphen c

theorem keyKeep_not_space {c : Char} (h1 : isKeyKeep c = true)
    (h2 : isPySpace c = false) : isPreKey c = true := by
  simp only [isKeyKeep, isPreKey, isAsciiUpper, isAsciiLower, isAsciiDigit,
    isHyphen, isPySpace, Bool.or_eq_true, decide_eq_true_eq,
    decide_eq_false_iff_not] at *
  omega

theorem keyChar_keep {c : Char} (h : isKeyChar c = true) : isKeyKeep c = true := by
  simp only [isKeyChar, isKeyKeep, isAsciiUpper, isAsciiLower, isAsciiDigit,
    isHyphen, isPySpace, Bool.or_eq_true, decide_eq_true_eq,
    decide_eq_false_iff_not] at *
  omega

theorem keyChar_not_space {c : Char} (h : isKeyChar c = true) :
    isPySpace c = false := by
  simp only [isKeyChar, isAsciiLower, isAsciiDigit, isHyphen, isPySpace,
    Bool.or_eq_true, decide_eq_true_eq, decide_eq_false_iff_not] at *
  omega

theorem keyChar_not_upper {c : Char} (h : isKeyChar c = true) :
    isAsciiUpper c = false := by
  simp only [isKeyChar, isAsciiUpper, isAsciiLower, isAsciiDigit, isHyphen,
    Bool.or_eq_true, decide_eq_true_eq, decide_eq_false_iff_not] at *
  omega

theorem toLowerChar_keyChar {c : Char} (h : isPreKey c = true) :
    isKeyChar (toLowerChar c) = true := by
  unfold toLowerChar
  by_cases hu : isAsciiUpper c = true
  · rw [if_pos hu]
    simp only [isAsciiUpper, decide_eq_true_eq] at hu
    obtain ⟨h1, h2⟩ := hu
    set n := c.toNat with hn
    interval_cases n <;> decide
  · rw [if_neg hu]
    simp only [isPreKey, isKeyChar, isAsciiUpper, isAsciiLower, isAsciiDigit,
      isHyphen, Bool.or_eq_true, Bool.eq_false_iff, ne_eq,
      decide_eq_true_eq] at *
    omega

theorem mem_collapseWsAux {c : Char} :
    ∀ (s : List Char) (b : Bool), c ∈ collapseWsAux s b →
      isHyphen c = true ∨ (c ∈ s ∧ isPySpace c = false)
  | [], b, h => by cases h
  | d :: rest, b, h => by
    rw [collapseWsAux] at h
    by_cases hd : isPySpace d = true
    · rw [if_pos hd] at h
      cases b with
      | true =>
        rw [if_pos rfl] at h
        rcases mem_collapseWsAux rest true h with h' | ⟨hm, hs⟩
        · exact Or.inl h'
        · exact Or.inr ⟨List.mem_cons_of_mem _ hm, hs⟩
      | false =>
        rw [if_neg (by decide)] at h
        rcases List.mem_cons.mp h with h' | h'
        · subst h'; exact Or.inl (by decide)
        · rcases mem_collapseWsAux rest true h' with h'' | ⟨hm, hs⟩
          · exact Or.inl h''
          · exact Or.inr ⟨List.mem_cons_of_mem _ hm, hs⟩
    · rw [if_neg hd] at h
      rcases List.mem_cons.mp h with h' | h'
      · subst h'
        exact Or.inr ⟨List.mem_cons_self _ _, Bool.eq_false_iff.mpr hd⟩
      · rcases mem_collapseWsAux rest false h' with h'' | ⟨hm, hs⟩
        · exact Or.inl h''
        · exact Or.inr ⟨List.mem_cons_of_mem _ hm, hs⟩

theorem collapseWsAux_no_space :
    ∀ (s : List Char) (b : Bool), (∀ c ∈ s, isPySpace c = false) →
      collapseWsAux s b = s
  | [], _, _ => rfl
  | d :: rest, b, h => by
    rw [collapseWsAux, if_neg (by rw [h d (List.mem_cons_self _ _)]; simp)]
    rw [collapseWsAux_no_space rest false
      (fun c hc => h c (List.mem_cons_of_mem _ hc))]

/-- Every character of a normalized key is a lowercase letter, a digit or a
hyphen. -/
theorem generate_key_chars (name : List Char) :
    ∀ c ∈ generate_key_from_name name, isKeyChar c = true := by
  intro c hc
  unfold generate_key_from_name at hc
  rcases List.mem_map.mp hc with ⟨d, hd, rfl⟩
  rcases mem_collapseWsAux _ _ hd with h' | ⟨hm, hs⟩
  · have hdh : isPreKey d = true := by
      simp only [isPreKey, h', Bool.or_true]
    exact toLowerChar_keyChar hdh
  · have hk : isKeyKeep d = true := List.of_mem_filter hm
    exact toLowerChar_keyChar (keyKeep_not_space hk hs)

theorem toLowerChar_fixed {c : Char} (h : isKeyChar c = true) :
    toLowerChar c = c := by
  unfold toLowerChar
  rw [keyChar_not_upper h]
  simp

theorem map_toLowerChar_id :
    ∀ s : List Char, (∀ c ∈ s, isKeyChar c = true) → s.map toLowerChar = s
  | [], _ => rfl
  | d :: rest, h => by
    rw [List.map_cons, toLowerChar_fixed (h d (List.mem_cons_self _ _)),
      map_toLowerChar_id rest (fun c hc => h c (List.mem_cons_of_mem _ hc))]

theorem collapseWsAux_true_eq :
    ∀ s : List Char, collapseWsAux s true =
      collapseWsAux (s.dropWhile fun d => isPySpace d) false
  | [] => rfl
  | d :: rest => by
    by_cases hd : isPySpace d = true
    · rw [collapseWsAux, if_pos hd, if_pos rfl,
        List.dropWhile_cons_of_pos (by simpa using hd)]
      exact collapseWsAux_true_eq rest
    · rw [List.dropWhile_cons_of_neg (by simpa using hd)]
      rw [collapseWsAux, if_neg hd]
      conv_rhs => rw [collapseWsAux, if_neg hd]

/-- The regex substitution `re.sub(r"\s+", "-", key)` and the spec's
"collapse every maximal run of whitespace into a single hyphen" agree. -/
theorem collapseRunsSpec_eq : ∀ s : List Char, collapseRunsSpec s = collapseWs s
  | [] => by rw [collapseRunsSpec]; rfl
  | d :: rest => by
    unfold collapseWs
    rw [collapseRunsSpec]
    by_cases hd : isPySpace d = true
    · rw [if_pos hd]
      rw [collapseWsAux, if_pos hd, if_neg (by decide)]
      rw [collapseRunsSpec_eq (rest.dropWhile fun x => isPySpace x)]
      unfold collapseWs
      rw [← collapseWsAux_true_eq rest]
    · rw [if_neg hd]
      rw [collapseWsAux, if_neg hd]
      rw [collapseRunsSpec_eq rest]
      rfl
termination_by s => s.length
decreasing_by
  · exact Nat.lt_succ_of_le (length_dropWhile_le _ _)
  · exact Nat.lt_succ_self _

/-- `generate_key_from_name` is idempotent. -/
theorem generate_key_idem (name : List Char) :
    generate_key_from_name (generate_key_from_name name) =
      generate_key_from_name name := by
  have hgood := generate_key_chars name
  set k := generate_key_from_name name with hk
  have h1 : stripSpecial k = k :=
    List.filter_eq_self.mpr (fun c hc => keyChar_keep (hgood c hc))
  have h2 : collapseWs k = k :=
    collapseWsAux_no_space k false (fun c hc => keyChar_not_space (hgood c hc))
  show (collapseWs (stripSpecial k)).map toLowerChar = k
  rw [h1, h2, map_toLowerChar_id k hgood]

/-- Modelled from the spec: a failure of the external logging collaborator
(`Logger.info`, §4.4 and §7 of the spec); nothing in src defines such an
error, it only parameterizes `Agent.log_debugE`. -/
inductive LoggerFailure where
  | failure

/-- A concrete options value with debug tracing enabled, for witnesses. -/
def tracedOptions : AgentOptions :=
  { name := ("A").data
    description := []
    LOG_AGENT_DEBUG_TRACE := some true }

/-- C1: `generate_key_from_name` is a pure total Lean function of the input
string (hence deterministic and never failing), it computes exactly the
spec's algorithm — remove every character that is not an ASCII letter,
digit, whitespace, or hyphen; collapse every maximal run of whitespace into
a single hyphen; lower-case the result — and the empty input yields the
empty output. -/
theorem normalize_refines_spec (name : List Char) :
    generate_key_from_name name = normalize_spec name ∧
      generate_key_from_name [] = [] := by
  constructor
  · unfold generate_key_from_name normalize_spec stripSpecial
    rw [collapseRunsSpec_eq]
    rfl
  · rfl

/-- C2: every character of `generate_key_from_name n` is a lowercase ASCII
letter, a digit or a hyphen, and `generate_key_from_name` is idempotent. -/
theorem normalize_key_chars_idempotent (name : List Char) :
    (generate_key_from_name name).all isKeyChar = true ∧
      generate_key_from_name (generate_key_from_name name) =
        generate_key_from_name name :=
  ⟨List.all_eq_true.mpr (generate_key_chars name), generate_key_idem name⟩

/-- C3: successful construction sets `id = generate_key_from_name name`,
takes the supplied callbacks or a fresh no-op sink, and copies `name`,
`description`, `save_chat` and the debug-trace flag verbatim from the
options.  The embedding of `Agent.__init__` is a pure function because the
source body is plain field assignment with no I/O. -/
theorem agent_init_fields (options : AgentOptions) :
    (Agent.init options).id = generate_key_from_name options.name ∧
    (Agent.init options).name = options.name ∧
    (Agent.init options).description = options.description ∧
    (Agent.init options).save_chat = options.save_chat ∧
    (Agent.init options).log_debug_trace = options.LOG_AGENT_DEBUG_TRACE ∧
    (Agent.init options).callbacks =
      (match options.callbacks with
        | some cb => cb
        | Option.none => { on_llm_new_token := fun _ => [] }) :=
  ⟨rfl, rfl, rfl, rfl, rfl, rfl⟩

/-- C4 counterexample: constructing an agent from the empty name does not
fail — `Agent.__init__` contains no guard and no raise, so the fallible
view of construction returns `ok` on the empty name. -/
theorem empty_name_construction_succeeds :
    (Agent.tryInit { name := [], description := [] }).isOk = true := rfl

/-- C4 amended: construction never fails — in particular it succeeds on the
empty name, silently yielding an agent whose id is the empty string; the
`ConfigurationError` guard is recommended hardening absent from the code.
Construction does succeed for every non-empty name as well. -/
theorem agent_construction_never_fails (options : AgentOptions) :
    (Agent.tryInit options).isOk = true ∧
      (options.name = [] → (Agent.init options).id = []) := by
  refine ⟨rfl, fun h => ?_⟩
  show generate_key_from_name options.name = []
  rw [h]
  rfl

/-- Witness for C4 amended at the empty-name options. -/
theorem agent_construction_never_fails_witness :
    (Agent.tryInit { name := [], description := [] }).isOk = true ∧
      (Agent.init { name := [], description := [] }).id = [] :=
  ⟨(agent_construction_never_fails { name := [], description := [] }).1,
    (agent_construction_never_fails { name := [], description := [] }).2 rfl⟩

/-- C5 counterexample: with tracing enabled and a logging collaborator that
fails, the failure comes straight back out of `log_debug` — nothing is
swallowed, because the source wraps `Logger.info` in no handler. -/
theorem log_debug_failure_escapes :
    (Agent.init tracedOptions).log_debugE (("C").data)
        (("m").data) PyValue.none
        (fun _ => Except.error LoggerFailure.failure) =
      Except.error LoggerFailure.failure := rfl

/-- C5 amended: when debug tracing is enabled, a failure of the logging
collaborator propagates to `log_debug`'s caller unchanged (the source has
no `try`/`except` around `Logger.info`); only with tracing disabled does
`log_debug` return without touching the collaborator. -/
theorem log_debug_propagates_logger_failure {ε : Type} (a : Agent)
    (cn m : List Char) (d : PyValue) (e : ε)
    (logger : List Char → Except ε Unit)
    (henabled : optTruthy a.log_debug_trace = true)
    (hfail : ∀ s, logger s = Except.error e) :
    a.log_debugE cn m d logger = Except.error e := by
  unfold Agent.log_debugE
  rw [henabled, if_pos rfl, hfail]

/-- Witness for C5 amended at a concrete traced agent and an always-failing
collaborator. -/
theorem log_debug_propagates_logger_failure_witness :
    optTruthy (Agent.init tracedOptions).log_debug_trace = true ∧
      (Agent.init tracedOptions).log_debugE (("C").data)
          (("m").data) (PyValue.int 0)
          (fun _ => Except.error LoggerFailure.failure) =
        Except.error LoggerFailure.failure :=
  ⟨rfl, log_debug_propagates_logger_failure _ _ _ _ _ _ rfl fun _ => rfl⟩

/-- C6: an agent whose debug-trace flag is falsy (`False` — the default —
or `None`) never invokes the logging collaborator: any sequence of
`log_debug` invocations, whatever their arguments, produces zero
`Logger.info` messages. -/
theorem log_debug_disabled_silent (options : AgentOptions)
    (calls : List ((List Char) × (List Char) × PyValue))
    (h : optTruthy options.LOG_AGENT_DEBUG_TRACE = false) :
    (Agent.init options).log_debug_many calls = [] := by
  have hoff : ∀ cn m d, (Agent.init options).log_debug cn m d = [] := by
    intro cn m d
    unfold Agent.log_debug
    have hflag : optTruthy (Agent.init options).log_debug_trace = false := h
    rw [hflag]
    simp
  unfold Agent.log_debug_many
  induction calls with
  | nil => rfl
  | cons c rest ih =>
    rw [List.map_cons, List.flatten_cons, hoff, ih]
    rfl

/-- Witness for C6 at the default flag and two concrete invocations. -/
theorem log_debug_disabled_silent_witness :
    optTruthy ({ name := ("A").data, description := [] } :
        AgentOptions).LOG_AGENT_DEBUG_TRACE = false ∧
      (Agent.init { name := ("A").data, description := [] }).log_debug_many
        [(("X").data, ("msg").data, PyValue.int 7),
          (("Y").data, ("other").data, PyValue.none)] = [] :=
  ⟨rfl, log_debug_disabled_silent { name := ("A").data, description := [] }
    [(("X").data, ("msg").data, PyValue.int 7),
      (("Y").data, ("other").data, PyValue.none)] rfl⟩

/-- C7: the base `is_streaming_enabled` of every agent returns `false` —
the default capability is non-streaming. -/
theorem is_streaming_default_false (a : Agent) :
    a.is_streaming_enabled = false := rfl

/-- C8: the spec's test vectors: `"Tech Agent!! 2.0"` normalizes to
`"tech-agent-20"`, the empty string to itself, and `"My Agent"` and
`"my-agent"` both normalize to `"my-agent"`. -/
theorem normalize_test_vectors :
    generate_key_from_name (("Tech Agent!! 2.0").data) =
        ("tech-agent-20").data ∧
      generate_key_from_name (("").data) = ("").data ∧
      generate_key_from_name (("My Agent").data) = ("my-agent").data ∧
      generate_key_from_name (("my-agent").data) = ("my-agent").data := by
  refine ⟨by decide, by decide, by decide, by decide⟩

/-- C9: with tracing enabled, `log_debug` picks its output shape by the
truthiness of `data`, not its presence: every falsy value (`None`, the
empty string, `0`, the empty dict are all falsy) yields the line without a
data section, and every truthy value yields the line carrying the rendered
data. -/
theorem log_debug_truthiness (a : Agent) (cn m : List Char)
    (h : optTruthy a.log_debug_trace = true) :
    (∀ d : PyValue, d.truthy = false → a.log_debug cn m d =
        [debugPfx a.name cn ++ (" ").data ++ m ++ (" \n>").data]) ∧
    (∀ d : PyValue, d.truthy = true → a.log_debug cn m d =
        [debugPfx a.name cn ++ (" ").data ++ m ++ (" \n> ").data ++
          pyStr d]) ∧
    PyValue.truthy PyValue.none = false ∧
    PyValue.truthy (PyValue.str []) = false ∧
    PyValue.truthy (PyValue.int 0) = false ∧
    PyValue.truthy (PyValue.dict []) = false := by
  refine ⟨?_, ?_, rfl, rfl, by decide, rfl⟩
  · intro d hd
    unfold Agent.log_debug debugLine
    rw [h, if_pos rfl, hd, if_neg (by decide)]
  · intro d hd
    unfold Agent.log_debug debugLine
    rw [h, if_pos rfl, hd, if_pos rfl]

/-- Witness for C9 at a concrete traced agent, with the falsy `0`. -/
theorem log_debug_truthiness_witness :
    optTruthy (Agent.init tracedOptions).log_debug_trace = true ∧
      (Agent.init tracedOptions).log_debug (("C").data)
          (("m").data) (PyValue.int 0) =
        [debugPfx (("A").data) (("C").data) ++ (" ").data ++ ("m").data ++
          (" \n>").data] :=
  ⟨rfl, (log_debug_truthiness (Agent.init tracedOptions) (("C").data)
      (("m").data) rfl).1 (PyValue.int 0) (by decide)⟩

/-- C10: a non-empty, punctuation-only name (`"!!!"`) normalizes to the
empty key, and constructing an agent with it succeeds, yielding an agent
whose id is the empty string. -/
theorem empty_key_from_nonempty_name :
    ("!!!").data ≠ [] ∧
      generate_key_from_name (("!!!").data) = [] ∧
      (Agent.tryInit { name := ("!!!").data, description := [] }).isOk =
        true ∧
      (Agent.init { name := ("!!!").data, description := [] }).id = [] :=
  ⟨by decide, by decide, rfl, by decide⟩

end AgentCore
